import Mathlib

/-!
# Verification of the codingforconvos conversation-orchestration core

Shallow embedding of the multi-turn conversation orchestration engine:

* `src/sequences.js` — `Sequence`, `SequenceManager`;
* `src/intents.js` — `Intent`, `IntentManager`;
* `src/contexts.js` — `DialogContext` (parameter bags, fulfillment text,
  follow-up events, sequence stack push/pop) and `ContextManager`
  (context creation, the authentication gate);
* the newer `DialogFlowEsClient` (`handleIntentAndNavigate`,
  `createEsSessionProps`, `getOrCreateEsSessionProps`, `intentHandler`,
  the session bootstrap block);
* `src/connectors.js` — the default-parameter sets and the payload-handler
  pipeline consumed by the session bootstrap.

JavaScript runtime values flowing through session parameters are embedded
as `JVal` (strings, `undefined`, and the two non-string objects that the
code passes where strings are expected).  Mutable context objects become
explicit state passing on `St`; the instrumentation trace `Ev` records
which collaborator functions the orchestrator invokes (each event mirrors
the `console.log` invocation line, or the `agent.add` /
`agent.setFollowupEvent` call, at the corresponding call site).
An exception thrown inside a turn surfaces as the `crashed` flag: the flag
is set where the JavaScript code would throw (a property read on
`undefined`), and every subsequent statement of the turn is skipped, which
matches the `try`/`catch` wrapper at the `intentHandler` boundary.

Registered intent handlers and sequence `navigate` bodies are external
business content (out of scope per the spec); they appear as opaque
functions `St → St`.  The live session-props context object
(`ctxSessionProps`, also reachable as `dialogContext.sessionParams`) is the
`sessionParams`/`sessionLifespan` component of `St`; persisting it with
`agent.context.set` snapshots it into `ctxStore` under its name
`sessionprops` (the name is assigned at creation and nothing in the core
rewrites it).
-/

/-- A JavaScript value as it occurs in the conversation state: a string,
`undefined` (the result of reading an absent object property), or one of
the two non-string objects that `ContextManager.handleRequireAuthentication`
passes to the rebound `setFollowupEvent`: the `WebhookClient` agent object
and the session-props context object. -/
inductive JVal where
  | str (s : String)
  | undef
  | agentObj
  | sessionPropsObj
deriving DecidableEq, Repr

namespace JVal

/-- JavaScript string coercion as it happens inside `'a' + x + 'b'`:
`undefined` prints as `"undefined"`, plain objects as `"[object Object]"`. -/
def toJsString : JVal → String
  | .str s => s
  | .undef => "undefined"
  | .agentObj => "[object Object]"
  | .sessionPropsObj => "[object Object]"

end JVal

/-- A JavaScript parameter bag (`context.parameters`): an insertion-ordered
association list of property name to value, as produced by repeated
property assignments (keys are unique). -/
abbrev Params := List (String × JVal)

/-- Reading `params[k]`: the stored value, or `undefined` when the property
is absent (JavaScript semantics; no exception). -/
def getP : Params → String → JVal
  | [], _ => JVal.undef
  | kv :: rest, k => if kv.1 = k then kv.2 else getP rest k

/-- Property assignment `params[k] = v`: overwrite the existing property,
or append a new one (JavaScript property insertion order). -/
def setP : Params → String → JVal → Params
  | [], k, v => [(k, v)]
  | kv :: rest, k, v => if kv.1 = k then (k, v) :: rest else kv :: setP rest k v

/-- A Dialogflow context object: `{name, lifespan, parameters}`. -/
structure Ctx where
  name : String
  lifespan : Nat
  parameters : Params
deriving DecidableEq, Repr

/-- Instrumentation events, one per collaborator invocation made by the
orchestration core:

* `handlerRun a` — the intent handler resolved for action `a` starts
  (`funcHandler(dialogContext)`);
* `navigateCalled n` — `navigate` is called on the sequence named `n`;
* `authGate` — `ContextManager.handleRequireAuthentication` is entered;
* `added v` — `agent.add(v)` (a response handed to the agent);
* `followup v` — `agent.setFollowupEvent(v)`;
* `basePayloadHook` — the injected `_populateFromEsPayload` runs;
* `payloadHook i` — the `i`-th registered connector payload handler runs;
* `lookupHook` — the injected `_populateFromLookup` runs. -/
inductive Ev where
  | handlerRun (action : String)
  | navigateCalled (seq : String)
  | authGate
  | added (v : JVal)
  | followup (v : JVal)
  | basePayloadHook
  | payloadHook (i : Nat)
  | lookupHook
deriving DecidableEq, Repr

/-- The per-request mutable world: the live session-props context object
(its parameter bag and lifespan), the agent's context store
(`agent.context`), the instrumentation trace, and whether an exception has
been thrown (caught only at the `intentHandler` boundary). -/
structure St where
  sessionParams : Params
  sessionLifespan : Nat
  ctxStore : List (String × Ctx)
  trace : List Ev
  crashed : Bool
deriving DecidableEq, Repr

/-- `agent.context.get(name)`. -/
def ctxGet : List (String × Ctx) → String → Option Ctx
  | [], _ => none
  | kv :: rest, n => if kv.1 = n then some kv.2 else ctxGet rest n

/-- `agent.context.set(context)`: store under `context.name`, overwriting
any previous context of that name. -/
def ctxSet : List (String × Ctx) → Ctx → List (String × Ctx)
  | [], c => [(c.name, c)]
  | kv :: rest, c => if kv.1 = c.name then (c.name, c) :: rest else kv :: ctxSet rest c

/-- Append an instrumentation event. -/
def appendEv (e : Ev) (st : St) : St :=
  { st with trace := st.trace ++ [e] }

/-- An exception is thrown: the remaining statements of the turn are
skipped (observed at each modelled statement boundary). -/
def crash (st : St) : St :=
  { st with crashed := true }

-- Context-name constants (contexts.js).
def SESSION_PROPS : String := "sessionprops"
def CTX_WELCOME : String := "welcome"
def CTX_RFC : String := "reasonforcontact"
def CTX_AUTH : String := "authentication"
def CTX_PWRESET : String := "passwordreset"

/-- JavaScript `s.split(sep)` for a single-character separator. -/
def jsSplitAux (sep : Char) : List Char → List Char → List String
  | [], acc => [String.mk acc.reverse]
  | c :: cs, acc =>
      if c = sep then String.mk acc.reverse :: jsSplitAux sep cs []
      else jsSplitAux sep cs (c :: acc)

/-- JavaScript `s.split(sep)` for a single-character separator. -/
def jsSplit (sep : Char) (s : String) : List String :=
  jsSplitAux sep s.toList []

/-- JavaScript `array.join('|')`. -/
def joinPipe : List String → String
  | [] => ""
  | [x] => x
  | x :: xs => x ++ "|" ++ joinPipe xs

/-- JavaScript `s.indexOf(c) !== -1`. -/
def jsHasChar (c : Char) (s : String) : Bool :=
  s.toList.any (fun x => x = c)

/-- The live session-props context as a context object (used whenever the
code persists `ctxSessionProps` via `agent.context.set`). -/
def sessionCtx (st : St) : Ctx :=
  { name := SESSION_PROPS, lifespan := st.sessionLifespan, parameters := st.sessionParams }

/-- `DialogContext.updateDialogflowEsContext(sessionParams)`: reset the
lifespan to the default 99 and persist the session-props context into the
agent store. -/
def updateSessionCtx (st : St) : St :=
  let st := { st with sessionLifespan := 99 }
  { st with ctxStore := ctxSet st.ctxStore (sessionCtx st) }

/-- Overwrite one live session parameter without persisting (a direct
JavaScript assignment `ctxSessionProps.parameters[k] = v`). -/
def assignSessionParam (st : St) (k : String) (v : JVal) : St :=
  { st with sessionParams := setP st.sessionParams k v }

/-- `dialogContext.setParam(dialogContext.sessionParams, k, v)`
(contexts.js `setParam`): assign the parameter on the live session-props
object, then persist it. -/
def setSessionParam (st : St) (k : String) (v : JVal) : St :=
  updateSessionCtx (assignSessionParam st k v)

/-- `dialogContext.setParams(dialogContext.sessionParams, {...})`: assign
every parameter of the bundle in order, then persist once. -/
def setSessionParams (st : St) (ps : List (String × JVal)) : St :=
  updateSessionCtx
    { st with sessionParams := ps.foldl (fun acc kv => setP acc kv.1 kv.2) st.sessionParams }

/-- Read a live session parameter (`dialogContext.params[k]`). -/
def sessionParam (st : St) (k : String) : JVal :=
  getP st.sessionParams k

/-- Read a parameter of the persisted session-props context in the agent
store (what the host transport will see after the turn). -/
def persistedSessionParam (st : St) (k : String) : JVal :=
  match ctxGet st.ctxStore SESSION_PROPS with
  | some c => getP c.parameters k
  | none => JVal.undef

/-- `DialogContext.pushSequence(name)` (contexts.js lines 561-574). -/
def pushSequence (st : St) (name : String) : St :=
  let st := assignSessionParam st "sequenceCurrent" (JVal.str name)
  if sessionParam st "sequenceStack" = JVal.str CTX_WELCOME
      ∨ sessionParam st "sequenceStack" = JVal.str "" then
    let st := assignSessionParam st "sequenceStack"
      (JVal.str (if name = CTX_RFC then name else CTX_RFC ++ "|" ++ name))
    let st :=
      if name ≠ CTX_RFC then assignSessionParam st "triggeredSkill" (JVal.str "1")
      else st
    updateSessionCtx st
  else
    let st := assignSessionParam st "sequenceStack"
      (JVal.str ((sessionParam st "sequenceStack").toJsString ++ "|" ++ name))
    updateSessionCtx st

/-- `DialogContext.popSequence(name)` (contexts.js lines 581-606). -/
def popSequence (st : St) (name : String) : St :=
  match sessionParam st "sequenceStack" with
  | JVal.str stack =>
      if jsHasChar '|' stack = false then
        -- stack.indexOf('|') === -1: single entry, idle, or corrupted.
        setSessionParams st
          [("sequenceCurrent", JVal.str CTX_RFC),
           ("sequenceStack", JVal.str (if name = CTX_RFC then name else CTX_RFC))]
      else
        let parts := jsSplit '|' stack
        -- integrity check (log-only): a top-of-stack mismatch with `name`
        -- goes to console.error and processing continues regardless
        let newParts := parts.take (parts.length - 1)
        let newSeq := newParts.getLastD ""
        setSessionParams st
          [("sequenceCurrent", JVal.str newSeq),
           ("sequenceStack", JVal.str (joinPipe newParts))]
  | _ => crash st  -- `.indexOf` on a non-string throws

/-- A sequence (sequences.js): name, activity description (private field
`_activity`), authentication requirement, default context parameters, and
the registered navigation body. -/
structure Sequence where
  name : String
  activityDesc : String
  authRequired : Bool
  params : Params
  navigate : St → St

/-- The activity getter defined in sequences.js — it is spelled `ativity`
and returns the `_activity` field. -/
def Sequence.ativity (s : Sequence) : JVal := JVal.str s.activityDesc

/-- A JavaScript read of `sequence.activity`: the Sequence class defines a
setter named `activity`, but the corresponding getter is misspelled
`ativity`, so the property read `sequence.activity` yields `undefined`
(an accessor property with a setter and no getter). -/
def Sequence.activityRead (_ : Sequence) : JVal := JVal.undef

/-- `SequenceManager`: the map of registered sequences, keyed by name. -/
abbrev SequenceManager := List (String × Sequence)

/-- `SequenceManager.get(name)`: the registered sequence, or an absent
value (`undefined`); never throws. -/
def SequenceManager.get : SequenceManager → String → Option Sequence
  | [], _ => none
  | kv :: rest, n => if kv.1 = n then some kv.2 else SequenceManager.get rest n

/-- `this._sequences.get(key)` with a session-parameter key: map keys are
strings, so a non-string key finds nothing. -/
def SequenceManager.getJ (m : SequenceManager) (v : JVal) : Option Sequence :=
  match v with
  | JVal.str s => m.get s
  | _ => none

/-- `SequenceManager.registerSequence(sequence)` (sequences.js lines
199-214): throw on duplicate name, otherwise insert. -/
def SequenceManager.registerSequence (m : SequenceManager) (s : Sequence) :
    Except String SequenceManager :=
  if (m.get s.name).isSome then
    .error ("Sequence " ++ s.name ++ " is already registered.")
  else
    .ok (m ++ [(s.name, s)])

/-- An intent binding (intents.js): associated sequence name, wait-for-reply
flag, and the registered handler body. -/
structure Intent where
  sequenceName : String
  waitForReply : Bool
  handler : St → St

/-- `IntentManager`: the map of registered intents, keyed by action.
`registerIntent` maintains `_intents` and `_intentContexts` with the same
key set (it inserts into both), so one association list carries both maps:
`has`/`get` read the intent, `hasContext`/`getContext` read the associated
sequence name. -/
abbrev IntentManager := List (String × Intent)

/-- `IntentManager.get(action)`. -/
def IntentManager.get : IntentManager → String → Option Intent
  | [], _ => none
  | kv :: rest, a => if kv.1 = a then some kv.2 else IntentManager.get rest a

/-- `IntentManager.has(action)`. -/
def IntentManager.has (m : IntentManager) (a : String) : Bool :=
  (m.get a).isSome

/-- `IntentManager.hasContext(action)` (same key set as `has`). -/
def IntentManager.hasContext (m : IntentManager) (a : String) : Bool :=
  (m.get a).isSome

/-- `IntentManager.getContext(action)`: the sequence name associated with
the action (callers guard with `hasContext`). -/
def IntentManager.getContext (m : IntentManager) (a : String) : String :=
  match m.get a with
  | some i => i.sequenceName
  | none => ""

/-- The `DialogFlowEsClient` configuration owned for the process lifetime:
registries, injected payload/lookup hooks, connector payload handlers (in
registration order), connector default-parameter sets (in registration
order), and the shared base-parameter object.  The hooks transform the
session-props parameter bag (their `dialogContext` argument is not used by
the orchestration core itself). -/
structure Client where
  sequenceManager : SequenceManager
  intentManager : IntentManager
  populateFromEsPayload : Params → Params
  payloadHandlers : List (Params → Params)
  populateFromLookup : Params → Params
  baseParams : Params
  defaultParamSets : List Params

/-- `dialogContext.respondWithText(v)` (contexts.js lines 351-355):
`agent.add` of `v`, or of `lastFulfillmentText` when `v` is the default
marker `'|'`. -/
def respondWithText (st : St) (v : JVal) : St :=
  appendEv (Ev.added (if v ≠ JVal.str "|" then v else sessionParam st "lastFulfillmentText")) st

/-- `dialogContext.respondWithEvent(eventName, fulfillmentText)`
(contexts.js lines 367-375), also reachable through the rebound alias
`setFollowupEvent`: add a dummy reply, record `lastEvent := eventName`,
then `agent.setFollowupEvent(eventName)`.  Both arguments are embedded as
`JVal` because `handleRequireAuthentication` calls the alias with the old
four-argument signature, passing non-string objects positionally. -/
def respondWithEvent (st : St) (eventName fulfillmentText : JVal) : St :=
  let st := appendEv
    (Ev.added (if fulfillmentText ≠ JVal.str "|" then fulfillmentText
               else sessionParam st "lastFulfillmentText")) st
  let st := setSessionParam st "lastEvent" eventName
  appendEv (Ev.followup eventName) st

/-- `dialogContext.resetOfferedAgentFlags()` (contexts.js lines 530-536). -/
def resetOfferedAgentFlags (st : St) : St :=
  setSessionParams st
    [("offeredAgent", JVal.str "0"),
     ("offeredAgentAccepted", JVal.str "0"),
     ("offeredAgentDeclined", JVal.str "0")]

/-- `sequence.navigate(dialogContext)`: record the invocation (mirroring
the `console.log` navigate-invocation lines at every call site),
then run the registered navigation body. -/
def callNavigate (sq : Sequence) (st : St) : St :=
  sq.navigate (appendEv (Ev.navigateCalled sq.name) st)

/-- `await funcHandler(dialogContext)`: record the invocation, then run the
registered handler body. -/
def callHandler (i : Intent) (action : String) (st : St) : St :=
  i.handler (appendEv (Ev.handlerRun action) st)

/-- `ContextManager.createCtx(name, params)` (contexts.js lines 673-686):
a fresh context whose parameters copy the provided defaults. -/
def createCtx (name : String) (params : Params) : Ctx :=
  { name := name, lifespan := 99, parameters := params }

/-- `ContextManager.getOrCreateCtx(agent, name)` (contexts.js lines
655-663): return the stored context, or create it from the same-named
sequence's default parameters and persist it.  `none` is the thrown
`TypeError` when the context is absent and no sequence of that name is
registered (`sequence.name` on `undefined`). -/
def getOrCreateCtx (sm : SequenceManager) (st : St) (name : String) :
    Option (Ctx × St) :=
  match ctxGet st.ctxStore name with
  | some c => some (c, st)
  | none =>
      match sm.get name with
      | some sq =>
          let c := createCtx sq.name sq.params
          some (c, { st with ctxStore := ctxSet st.ctxStore c })
      | none => none

/-- `dialogContext.isAuthRequired()` (contexts.js lines 521-524): fetch or
create the authentication context, then test the auth-required predicate.
`none` is the propagated exception from `getOrCreateCtx`. -/
def isAuthRequired (sm : SequenceManager) (st : St) : Option (Bool × St) :=
  match getOrCreateCtx sm st CTX_AUTH with
  | none => none
  | some (c, st) =>
      some (decide (sessionParam st "customerIdentified" = JVal.str "0")
        || decide (sessionParam st "customerValidated" = JVal.str "0")
        || decide (¬ getP c.parameters "validationStatus" = JVal.str "1"), st)

/-- `dialogContext.popSequenceAndNavigate(name)` (contexts.js lines
608-614): pop, re-read the current sequence, navigate it. -/
def popSequenceAndNavigate (sm : SequenceManager) (st : St) (name : String) : St :=
  let st := popSequence st name
  if st.crashed then st
  else
    match sm.getJ (sessionParam st "sequenceCurrent") with
    | none => crash st  -- `sequenceUpdated.name` on undefined throws
    | some sq => callNavigate sq st

/-- The unconditional tail of `ContextManager.handleRequireAuthentication`
(contexts.js lines 721-724): push the authentication sequence and navigate
it. -/
def authGateTail (sm : SequenceManager) (st : St) : St :=
  let st := pushSequence st CTX_AUTH
  match sm.get CTX_AUTH with
  | none => crash st  -- `sequenceAuth.navigate` on undefined throws
  | some sq => callNavigate sq st

/-- `ContextManager.handleRequireAuthentication(dialogContext)`
(contexts.js lines 694-725).  Faithful to the source control flow:

* the `validationStatus === '1'` branch has no `return`, so after forcing
  `customerValidated` and navigating the current sequence it falls through
  to the push-authentication tail;
* the `validationStatus === '2'` branches call the alias
  `setFollowupEvent` — bound to the two-parameter `respondWithEvent` — with
  the old four-argument signature `(agent, sessionParams, name, text)`, so
  the agent object arrives as `eventName` and the session-props context
  object as `fulfillmentText`, and the string literals are dropped;
* the apology interpolates `sequenceCurrent.activity`, which reads as
  `undefined` (the getter is misspelled `ativity`). -/
def handleRequireAuthentication (sm : SequenceManager) (st0 : St) : St :=
  let st := appendEv Ev.authGate st0
  match getOrCreateCtx sm st CTX_AUTH with
  | none => crash st
  | some (context, st) =>
      let vs := getP context.parameters "validationStatus"
      if vs = JVal.str "1" then
        -- Should never occur; correct application state, navigate, and
        -- (no return in the source) continue into the tail below.
        let st := setSessionParam st "customerValidated" (JVal.str "1")
        match sm.getJ (sessionParam st "sequenceCurrent") with
        | none => crash st
        | some sq => authGateTail sm (callNavigate sq st)
      else if vs = JVal.str "2" then
        if sessionParam st "offeredAgent" = JVal.str "0" then
          match sm.getJ (sessionParam st "sequenceCurrent") with
          | none => crash st  -- `sequenceCurrent.activity` on undefined throws
          | some sqCur =>
              let apology := "I\x27m sorry, but " ++ (sqCur.activityRead).toJsString
                ++ " isn\x27t something I can do without validating your identity."
              let st := setSessionParam st "lastFulfillmentText" (JVal.str apology)
              respondWithEvent st JVal.agentObj JVal.sessionPropsObj
        else if sessionParam st "offeredAgentAccepted" = JVal.str "1" then
          respondWithEvent st JVal.agentObj JVal.sessionPropsObj
        else if sessionParam st "offeredAgentDeclined" = JVal.str "1" then
          popSequenceAndNavigate sm (resetOfferedAgentFlags st) CTX_PWRESET
        else
          authGateTail sm st
      else
        authGateTail sm st

/-- The statements of `DialogFlowEsClient.handleIntentAndNavigate` after
the awaited handler returns (part_003 lines 257-293): re-fetch the current
sequence, honour `responseAlreadySet`, honour `waitForReply`, run the
authentication gate, or navigate the sequence forward. -/
def afterHandler (cl : Client) (intent : Intent) (action : String) (st : St) : St :=
  let seqUpdated := cl.sequenceManager.getJ (sessionParam st "sequenceCurrent")
  if sessionParam st "responseAlreadySet" = JVal.str "1" then
    if intent.waitForReply then setSessionParam st "lastAction" (JVal.str action)
    else st
  else if intent.waitForReply then
    let st := setSessionParam st "lastAction" (JVal.str action)
    respondWithText st (sessionParam st "lastFulfillmentText")
  else
    match seqUpdated with
    | none => crash st  -- `sequenceUpdated.authRequired` on undefined throws
    | some sq =>
        if sq.authRequired then
          match isAuthRequired cl.sequenceManager st with
          | none => crash st
          | some (b, st) =>
              if b then handleRequireAuthentication cl.sequenceManager st
              else callNavigate sq st
        else callNavigate sq st

/-- `DialogFlowEsClient.handleIntentAndNavigate(dialogContext, intentAction)`
(part_003 lines 247-294): run the resolved handler, then the post-handler
gating chain.  A handler that throws (models as a returned `crashed`
state) aborts the remainder. -/
def handleIntentAndNavigate (cl : Client) (action : String) (st : St) : St :=
  match cl.intentManager.get action with
  | none => crash st  -- call sites guard with has(); `.handler` on undefined throws
  | some intent =>
      let st := callHandler intent action st
      if st.crashed then st else afterHandler cl intent action st

/-- The field assignments `createEsSessionProps` performs on the client's
shared `_baseParams` object (part_003 lines 335-350), in source order. -/
def esSessionPropAssignments (sessionId : String) : List (String × JVal) :=
  [("sessionId", JVal.str sessionId),
   ("sessionInitialized", JVal.str "0"),
   ("helpCounter", JVal.str "0"),
   ("responseAlreadySet", JVal.str "0"),
   ("fallbackCounter", JVal.str "0"),
   ("noInputCounter", JVal.str "0"),
   ("sequenceCurrent", JVal.str "welcome"),
   ("sequenceStack", JVal.str "welcome"),
   ("lastEvent", JVal.str ""),
   ("lastAction", JVal.str ""),
   ("lastFulfillmentText", JVal.str ""),
   ("fulfillmentBuffer", JVal.str ""),
   ("triggeredSkill", JVal.str "0"),
   ("sayGoodbye", JVal.str "0"),
   ("saidGoodbye", JVal.str "0")]

/-- The parameter bag of a freshly created session-props context: the
client's base parameters overwritten by the `createEsSessionProps` field
assignments. -/
def createEsSessionPropsParams (base : Params) (sessionId : String) : Params :=
  (esSessionPropAssignments sessionId).foldl (fun acc kv => setP acc kv.1 kv.2) base

/-- `DialogFlowEsClient.getOrCreateEsSessionProps(agent, sessionId)`
(part_003 lines 303-326): adopt the stored session-props context, or build
a fresh one (base parameters, `createEsSessionProps` assignments, then
every registered connector default-parameter set merged in registration
order) and persist it. -/
def getOrCreateEsSessionProps (cl : Client) (sessionId : String) (st : St) : St :=
  match ctxGet st.ctxStore SESSION_PROPS with
  | some c => { st with sessionParams := c.parameters, sessionLifespan := c.lifespan }
  | none =>
      let p0 := createEsSessionPropsParams cl.baseParams sessionId
      let p1 := cl.defaultParamSets.foldl
        (fun acc set => set.foldl (fun a kv => setP a kv.1 kv.2) acc) p0
      let st := { st with sessionParams := p1, sessionLifespan := 99 }
      { st with ctxStore := ctxSet st.ctxStore (sessionCtx st) }

/-- The connector payload-handler loop of the bootstrap block (part_003
lines 407-411): run each registered handler in registration order, each
receiving the session parameters produced by the previous one. -/
def runPayloadHandlersAux : List (Params → Params) → Nat → St → St
  | [], _, st => st
  | h :: hs, i, st =>
      let st := appendEv (Ev.payloadHook i) st
      let st := { st with sessionParams := h st.sessionParams }
      runPayloadHandlersAux hs (i + 1) st

/-- The session bootstrap block of `intentHandler` (part_003 lines
400-425), gated by `sessionInitialized === '0'`: base payload hook,
connector payload hooks in registration order, the conditional lookup
hook, then `sessionInitialized = '1'` and `agent.context.set`. -/
def bootstrapBlock (cl : Client) (st : St) : St :=
  if sessionParam st "sessionInitialized" = JVal.str "0" then
    let st := appendEv Ev.basePayloadHook st
    let st := { st with sessionParams := cl.populateFromEsPayload st.sessionParams }
    let st := runPayloadHandlersAux cl.payloadHandlers 0 st
    let st :=
      if sessionParam st "customerIdentified" = JVal.str "0"
          ∨ sessionParam st "interactionSource" = JVal.str "phone" then
        let st := appendEv Ev.lookupHook st
        { st with sessionParams := cl.populateFromLookup st.sessionParams }
      else st
    let st := assignSessionParam st "sessionInitialized" (JVal.str "1")
    { st with ctxStore := ctxSet st.ctxStore (sessionCtx st) }
  else st

/-- The statements of `intentHandler` before the resolution chain
(part_003 lines 362-425): fetch or create the session props, fetch the
current sequence (falling back to `unassociated`), fetch or create the
action-related context, and run the bootstrap block.  `.error` carries the
state of a turn aborted by an exception (caught at the boundary). -/
def turnPreamble (cl : Client) (sessionId action : String) (st0 : St) :
    Except St (St × Sequence) :=
  let st := getOrCreateEsSessionProps cl sessionId st0
  match (cl.sequenceManager.getJ (sessionParam st "sequenceCurrent")).orElse
      (fun _ => cl.sequenceManager.get "unassociated") with
  | none => .error (crash st)  -- `sequenceCurrent.name` on undefined throws
  | some sequenceCurrent =>
      if cl.intentManager.hasContext action then
        match getOrCreateCtx cl.sequenceManager st (cl.intentManager.getContext action) with
        | none => .error (crash st)  -- getOrCreateCtx threw
        | some (_, st') => .ok (bootstrapBlock cl st', sequenceCurrent)
      else .ok (bootstrapBlock cl st, sequenceCurrent)

/-- The epilogue each resolution branch of `intentHandler` runs before
returning (part_003 lines 434-435, 446-447, 455-456, 465-466):
`ctxSessionProps.parameters.responseAlreadySet = '0'` followed by
`agent.context.set(ctxSessionProps)` — skipped when the branch threw. -/
def finishBranch (st : St) : St :=
  if st.crashed then st
  else
    let st := assignSessionParam st "responseAlreadySet" (JVal.str "0")
    { st with ctxStore := ctxSet st.ctxStore (sessionCtx st) }

/-- The composite, templated, and no-handler steps of the resolution chain
(part_003 lines 440-467), entered after the base context fetch.  The
composite name is `lastAction + '.' + action` (JavaScript string coercion
applies when `lastAction` is not a string); the base-context fetch that
precedes this tail never touches the session parameters, so re-reading
`lastAction` here yields the value line 440 read. -/
def resolveTail (cl : Client) (action drt : String) (sequenceCurrent : Sequence)
    (st : St) : St :=
  let compositeIntentName := (sessionParam st "lastAction").toJsString ++ "." ++ action
  if cl.intentManager.has compositeIntentName then
    finishBranch (handleIntentAndNavigate cl compositeIntentName st)
  else
    -- Handle a templated intent.
    let actiontemplateTail :=
      if jsHasChar '.' action then (jsSplit '.' action).getLastD action
      else action
    if cl.intentManager.has actiontemplateTail then
      finishBranch (handleIntentAndNavigate cl actiontemplateTail st)
    else
      -- Handle no intent handlers found.
      let st := setSessionParam st "lastFulfillmentText" (JVal.str drt)
      finishBranch (callNavigate sequenceCurrent st)

/-- The resolution chain of `intentHandler` (part_003 lines 431-467):
stand-alone first; otherwise fetch the base context associated with
`lastAction` (which may throw) and continue with the composite, templated,
and fallback steps. -/
def resolveAndRun (cl : Client) (action drt : String) (sequenceCurrent : Sequence)
    (st : St) : St :=
  -- Handle a stand-alone intent.
  if cl.intentManager.has action then
    finishBranch (handleIntentAndNavigate cl action st)
  else
    match sessionParam st "lastAction" with
    | JVal.str la =>
        if cl.intentManager.hasContext la then
          match getOrCreateCtx cl.sequenceManager st (cl.intentManager.getContext la) with
          | none => crash st  -- getOrCreateCtx threw while fetching the base context
          | some (_, st') => resolveTail cl action drt sequenceCurrent st'
        else resolveTail cl action drt sequenceCurrent st
    | _ => resolveTail cl action drt sequenceCurrent st

/-- `DialogFlowEsClient.intentHandler(agent)` (part_003 lines 362-471):
the per-request control loop.  `action` is `agent.action` (the detected
action), `drt` is the default response text `agent.consoleMessages[0].text`
consumed by the no-handler fallback. -/
def intentHandler (cl : Client) (sessionId action drt : String) (st0 : St) : St :=
  match turnPreamble cl sessionId action st0 with
  | .error st => st
  | .ok (st, sequenceCurrent) => resolveAndRun cl action drt sequenceCurrent st

/-!
## Reference semantics of `createEsSessionProps`

For the aliasing behaviour of `createEsSessionProps` the parameter bag of
the returned context must be a *reference* to the client's shared
`_baseParams` object, so this part is embedded against a small object
heap: addresses to parameter bags. -/

/-- A JavaScript object heap: addresses to parameter bags. -/
def JsHeap := Nat → Params

/-- Read `obj[k]` through a reference. -/
def heapRead (h : JsHeap) (addr : Nat) (k : String) : JVal :=
  getP (h addr) k

/-- Assign `obj[k] = v` through a reference. -/
def heapWrite (h : JsHeap) (addr : Nat) (k : String) (v : JVal) : JsHeap :=
  fun a => if a = addr then setP (h addr) k v else h a

/-- A context object whose `parameters` field holds a reference
(`{name, lifespan, parameters: this._baseParams}` stores the reference,
not a copy). -/
structure EsCtxRef where
  name : String
  lifespan : Nat
  parametersRef : Nat

/-- The part of `DialogFlowEsClient` relevant to session-props creation:
the reference to the client's single shared `_baseParams` object. -/
structure EsClientRef where
  baseParamsRef : Nat

/-- `DialogFlowEsClient.createEsSessionProps(sessionId)` (part_003 lines
334-354): perform the field assignments on the shared `this._baseParams`
object, then return `{name: SESSION_PROPS, lifespan: 99, parameters:
this._baseParams}` — whose `parameters` is the same object. -/
def createEsSessionProps (cl : EsClientRef) (h : JsHeap) (sessionId : String) :
    JsHeap × EsCtxRef :=
  let h := (esSessionPropAssignments sessionId).foldl
    (fun hh kv => heapWrite hh cl.baseParamsRef kv.1 kv.2) h
  (h, { name := SESSION_PROPS, lifespan := 99, parametersRef := cl.baseParamsRef })

/-- A fresh request state: live session-props parameters `p`, persisted
context store `store`, empty trace. -/
def mkSt (p : Params) (store : List (String × Ctx)) : St :=
  { sessionParams := p, sessionLifespan := 99, ctxStore := store,
    trace := [], crashed := false }

/-- The instrumentation events of a run of `n` connector payload handlers
starting at index `i` (used to state the bootstrap trace). -/
def hookEvents : Nat → Nat → List Ev
  | 0, _ => []
  | n + 1, i => Ev.payloadHook i :: hookEvents n (i + 1)

/-!
## Concrete fixtures (registered business content for witnesses and for
evaluating the code at concrete inputs; handler and navigation bodies are
inert)
-/

/-- A registered authentication sequence (navigation body inert). -/
def seqAuthFx : Sequence :=
  { name := CTX_AUTH, activityDesc := "validating your identity",
    authRequired := false, params := [("validationStatus", JVal.str "0")],
    navigate := fun st => st }

/-- A registered auth-requiring sequence (navigation body inert). -/
def seqPwFx : Sequence :=
  { name := CTX_PWRESET, activityDesc := "resetting your password",
    authRequired := true, params := [], navigate := fun st => st }

/-- A registered welcome sequence (navigation body inert). -/
def seqWelcomeFx : Sequence :=
  { name := CTX_WELCOME, activityDesc := "welcoming you",
    authRequired := false, params := [("none", JVal.str "0")],
    navigate := fun st => st }

/-- A registry holding the fixture sequences. -/
def smFx : SequenceManager :=
  [(CTX_AUTH, seqAuthFx), (CTX_PWRESET, seqPwFx), (CTX_WELCOME, seqWelcomeFx)]

/-- A stored authentication context with the given `validationStatus`. -/
def authCtxFx (vs : String) : Ctx :=
  { name := CTX_AUTH, lifespan := 99, parameters := [("validationStatus", JVal.str vs)] }

/-- The gate's input state for the failed-validation, not-yet-offered-agent
scenario: `validationStatus = '2'`, `offeredAgent = '0'`, current sequence
`passwordreset`. -/
def stC3 : St :=
  mkSt [("sequenceCurrent", JVal.str CTX_PWRESET),
        ("offeredAgent", JVal.str "0"),
        ("sequenceStack", JVal.str "reasonforcontact|passwordreset"),
        ("lastFulfillmentText", JVal.str "")]
      [(CTX_AUTH, authCtxFx "2")]

/-- The gate's input state for the self-healing scenario:
`validationStatus = '1'`, current sequence `passwordreset`. -/
def stC4 : St :=
  mkSt [("sequenceCurrent", JVal.str CTX_PWRESET),
        ("sequenceStack", JVal.str "reasonforcontact|passwordreset"),
        ("customerValidated", JVal.str "0")]
      [(CTX_AUTH, authCtxFx "1")]

/-- A registered break intent (`waitForReply = true`, handler inert). -/
def intGreetFx : Intent :=
  { sequenceName := CTX_WELCOME, waitForReply := true, handler := fun st => st }

/-- A registered stand-alone intent for `"ask.wellbeing"` (handler inert). -/
def intAskFx : Intent :=
  { sequenceName := CTX_WELCOME, waitForReply := false, handler := fun st => st }

/-- A registered composite intent for `"welcome.ask.wellbeing"` (handler
inert). -/
def intCompFx : Intent :=
  { sequenceName := CTX_WELCOME, waitForReply := false, handler := fun st => st }

/-- A client fixture with one break intent registered under `"greet"`. -/
def clGreetFx : Client :=
  { sequenceManager := smFx,
    intentManager := [("greet", intGreetFx)],
    populateFromEsPayload := fun p => p,
    payloadHandlers := [],
    populateFromLookup := fun p => p,
    baseParams := [],
    defaultParamSets := [] }

/-- The spec's priority-chain example client: both the stand-alone
`"ask.wellbeing"` intent and the composite `"welcome.ask.wellbeing"`
intent are registered. -/
def clAskFx : Client :=
  { sequenceManager := smFx,
    intentManager := [("ask.wellbeing", intAskFx), ("welcome.ask.wellbeing", intCompFx)],
    populateFromEsPayload := fun p => p,
    payloadHandlers := [],
    populateFromLookup := fun p => p,
    baseParams := [],
    defaultParamSets := [] }

/-- A session state mid-conversation for the priority-chain example:
initialized session, `lastAction = "welcome"`. -/
def stAskFx : St :=
  mkSt [("sessionInitialized", JVal.str "1"),
        ("lastAction", JVal.str CTX_WELCOME),
        ("sequenceCurrent", JVal.str CTX_WELCOME),
        ("sequenceStack", JVal.str CTX_WELCOME),
        ("responseAlreadySet", JVal.str "0"),
        ("lastFulfillmentText", JVal.str "")]
      [(SESSION_PROPS,
        { name := SESSION_PROPS, lifespan := 99,
          parameters := [("sessionInitialized", JVal.str "1"),
                         ("lastAction", JVal.str CTX_WELCOME),
                         ("sequenceCurrent", JVal.str CTX_WELCOME),
                         ("sequenceStack", JVal.str CTX_WELCOME),
                         ("responseAlreadySet", JVal.str "0"),
                         ("lastFulfillmentText", JVal.str "")] })]

/-- The input state for the break-intent scenario: a stored fulfillment
text and `responseAlreadySet = '0'`. -/
def stGreetFx : St :=
  mkSt [("lastFulfillmentText", JVal.str "How are you today?"),
        ("responseAlreadySet", JVal.str "0"),
        ("sequenceCurrent", JVal.str CTX_WELCOME)]
      []

/-- A client fixture for the bootstrap: a base payload hook, one connector
payload handler, and a lookup hook, each writing a distinct parameter. -/
def clBootFx : Client :=
  { sequenceManager := smFx,
    intentManager := [],
    populateFromEsPayload := fun p => setP p "interactionSource" (JVal.str "chat"),
    payloadHandlers := [fun p => setP p "customerIdentified" (JVal.str "0")],
    populateFromLookup := fun p => setP p "customerIdentified" (JVal.str "1"),
    baseParams := [],
    defaultParamSets := [] }

/-!
## Basic lemmas about the parameter bags, the context store, and the heap
-/

theorem getP_setP_self (p : Params) (k : String) (v : JVal) :
    getP (setP p k v) k = v := by
  induction p with
  | nil => simp [setP, getP]
  | cons kv rest ih =>
      by_cases h : kv.1 = k <;> simp [setP, getP, h, ih]

theorem getP_setP_ne (p : Params) (k k' : String) (v : JVal) (h : k ≠ k') :
    getP (setP p k v) k' = getP p k' := by
  induction p with
  | nil => simp [setP, getP, h]
  | cons kv rest ih =>
      by_cases hk : kv.1 = k
      · simp [setP, getP, hk, h]
      · by_cases hk' : kv.1 = k'
        · simp [setP, getP, hk, hk', Ne.symm h]
        · simp [setP, getP, hk, hk', ih]

theorem ctxGet_ctxSet_self (store : List (String × Ctx)) (c : Ctx) :
    ctxGet (ctxSet store c) c.name = some c := by
  induction store with
  | nil => simp [ctxSet, ctxGet]
  | cons kv rest ih =>
      by_cases h : kv.1 = c.name <;> simp [ctxSet, ctxGet, h, ih]

theorem heapWrite_at (h : JsHeap) (addr : Nat) (k : String) (v : JVal) :
    heapWrite h addr k v addr = setP (h addr) k v := by
  simp [heapWrite]

/-!
## State-plumbing lemmas
-/

@[simp] theorem appendEv_sessionParam (e : Ev) (st : St) (k : String) :
    sessionParam (appendEv e st) k = sessionParam st k := rfl

@[simp] theorem appendEv_trace (e : Ev) (st : St) :
    (appendEv e st).trace = st.trace ++ [e] := rfl

@[simp] theorem appendEv_crashed (e : Ev) (st : St) :
    (appendEv e st).crashed = st.crashed := rfl

@[simp] theorem updateSessionCtx_sessionParam (st : St) (k : String) :
    sessionParam (updateSessionCtx st) k = sessionParam st k := rfl

@[simp] theorem updateSessionCtx_sessionParams (st : St) :
    (updateSessionCtx st).sessionParams = st.sessionParams := rfl

@[simp] theorem updateSessionCtx_trace (st : St) :
    (updateSessionCtx st).trace = st.trace := rfl

@[simp] theorem updateSessionCtx_crashed (st : St) :
    (updateSessionCtx st).crashed = st.crashed := rfl

@[simp] theorem setSessionParam_sessionParam_self (st : St) (k : String) (v : JVal) :
    sessionParam (setSessionParam st k v) k = v :=
  getP_setP_self _ _ _

theorem setSessionParam_sessionParam_ne (st : St) (k k' : String) (v : JVal)
    (h : k ≠ k') :
    sessionParam (setSessionParam st k v) k' = sessionParam st k' :=
  getP_setP_ne _ _ _ _ h

@[simp] theorem setSessionParam_trace (st : St) (k : String) (v : JVal) :
    (setSessionParam st k v).trace = st.trace := rfl

@[simp] theorem setSessionParam_crashed (st : St) (k : String) (v : JVal) :
    (setSessionParam st k v).crashed = st.crashed := rfl

theorem finishBranch_crashed (st : St) :
    (finishBranch st).crashed = st.crashed := by
  by_cases h : st.crashed <;> simp [finishBranch, h, assignSessionParam]

theorem finishBranch_persisted (st : St) (h : st.crashed = false) :
    persistedSessionParam (finishBranch st) "responseAlreadySet" = JVal.str "0" := by
  have hset := ctxGet_ctxSet_self st.ctxStore
    (sessionCtx (assignSessionParam st "responseAlreadySet" (JVal.str "0")))
  simp [finishBranch, h, persistedSessionParam, sessionCtx, assignSessionParam] at hset ⊢
  simp [hset, getP_setP_self]

/-!
## Claim theorems
-/

/-- C5: `pushSequence(n)` on an idle stack (exactly `welcome` or the
empty string) sets `sequenceCurrent` to `n`, re-anchors the stack to
`reasonforcontact|n` (just `reasonforcontact` when `n` is the root),
and sets `triggeredSkill := '1'` exactly when `n` differs from the root
(otherwise `triggeredSkill` keeps its previous value); on any non-idle
stack it appends `'|' + n` instead. -/
theorem pushSequence_idle_reanchors_and_nonidle_appends (st : St) (n : String) :
    ((sessionParam st "sequenceStack" = JVal.str CTX_WELCOME ∨
        sessionParam st "sequenceStack" = JVal.str "") →
      sessionParam (pushSequence st n) "sequenceCurrent" = JVal.str n ∧
      sessionParam (pushSequence st n) "sequenceStack" =
        JVal.str (if n = CTX_RFC then CTX_RFC else CTX_RFC ++ "|" ++ n) ∧
      sessionParam (pushSequence st n) "triggeredSkill" =
        (if n = CTX_RFC then sessionParam st "triggeredSkill" else JVal.str "1")) ∧
    (∀ v : String, sessionParam st "sequenceStack" = JVal.str v →
      v ≠ CTX_WELCOME → v ≠ "" →
      sessionParam (pushSequence st n) "sequenceCurrent" = JVal.str n ∧
      sessionParam (pushSequence st n) "sequenceStack" = JVal.str (v ++ "|" ++ n)) := by
  constructor
  · intro hidle
    replace hidle : getP st.sessionParams "sequenceStack" = JVal.str CTX_WELCOME ∨
        getP st.sessionParams "sequenceStack" = JVal.str "" := hidle
    by_cases hn : n = CTX_RFC
    · rcases hidle with h | h <;>
        simp [pushSequence, hn, h, sessionParam, assignSessionParam,
          getP_setP_self, getP_setP_ne]
    · rcases hidle with h | h <;>
        simp [pushSequence, hn, h, sessionParam, assignSessionParam,
          getP_setP_self, getP_setP_ne]
  · intro v hv hw he
    replace hv : getP st.sessionParams "sequenceStack" = JVal.str v := hv
    simp [pushSequence, hv, hw, he, sessionParam, assignSessionParam,
      getP_setP_self, getP_setP_ne, JVal.toJsString]

/-- C5 witness: the spec's example `push("authentication")` from stack
`"welcome"`, and an append onto a non-idle stack. -/
theorem pushSequence_idle_reanchors_and_nonidle_appends_witness :
    (sessionParam (pushSequence (mkSt [("sequenceStack", JVal.str "welcome")] [])
        "authentication") "sequenceCurrent" = JVal.str "authentication" ∧
      sessionParam (pushSequence (mkSt [("sequenceStack", JVal.str "welcome")] [])
        "authentication") "sequenceStack" =
        JVal.str (if "authentication" = CTX_RFC then CTX_RFC
                  else CTX_RFC ++ "|" ++ "authentication") ∧
      sessionParam (pushSequence (mkSt [("sequenceStack", JVal.str "welcome")] [])
        "authentication") "triggeredSkill" =
        (if "authentication" = CTX_RFC
         then sessionParam (mkSt [("sequenceStack", JVal.str "welcome")] []) "triggeredSkill"
         else JVal.str "1")) ∧
    (sessionParam (pushSequence (mkSt [("sequenceStack", JVal.str "reasonforcontact")] [])
        "authentication") "sequenceCurrent" = JVal.str "authentication" ∧
      sessionParam (pushSequence (mkSt [("sequenceStack", JVal.str "reasonforcontact")] [])
        "authentication") "sequenceStack" =
        JVal.str ("reasonforcontact" ++ "|" ++ "authentication")) :=
  ⟨(pushSequence_idle_reanchors_and_nonidle_appends
      (mkSt [("sequenceStack", JVal.str "welcome")] []) "authentication").1
      (Or.inl (by decide)),
   (pushSequence_idle_reanchors_and_nonidle_appends
      (mkSt [("sequenceStack", JVal.str "reasonforcontact")] []) "authentication").2
      "reasonforcontact" (by decide) (by decide) (by decide)⟩

/-- C6: `popSequence(n)` on a stack without a `'|'` separator resets both
`sequenceCurrent` and `sequenceStack` to the canonical root
`reasonforcontact`, regardless of the requested name `n` and of what the
single entry was. -/
theorem popSequence_single_entry_resets_to_root (st : St) (n v : String)
    (hstack : sessionParam st "sequenceStack" = JVal.str v)
    (hnopipe : jsHasChar '|' v = false) :
    sessionParam (popSequence st n) "sequenceCurrent" = JVal.str CTX_RFC ∧
    sessionParam (popSequence st n) "sequenceStack" = JVal.str CTX_RFC := by
  have hbranch : (if n = CTX_RFC then n else CTX_RFC) = CTX_RFC := by
    by_cases h : n = CTX_RFC <;> simp [h]
  replace hstack : getP st.sessionParams "sequenceStack" = JVal.str v := hstack
  simp [popSequence, hstack, hnopipe, hbranch, setSessionParams, sessionParam,
    getP_setP_self, getP_setP_ne]

/-- C6 witness: popping `"authentication"` off the corrupted single-entry
stack `"welcome"`. -/
theorem popSequence_single_entry_resets_to_root_witness :
    sessionParam (popSequence (mkSt [("sequenceStack", JVal.str "welcome")] [])
      "authentication") "sequenceCurrent" = JVal.str CTX_RFC ∧
    sessionParam (popSequence (mkSt [("sequenceStack", JVal.str "welcome")] [])
      "authentication") "sequenceStack" = JVal.str CTX_RFC :=
  popSequence_single_entry_resets_to_root
    (mkSt [("sequenceStack", JVal.str "welcome")] []) "authentication" "welcome"
    (by decide) (by decide)

/-- Looking a name up after appending one registration at the end. -/
theorem SequenceManager.get_append_single (m : SequenceManager) (k n : String)
    (s : Sequence) :
    (m ++ [(k, s)]).get n =
      match m.get n with
      | some x => some x
      | none => if k = n then some s else none := by
  induction m with
  | nil => simp [SequenceManager.get]
  | cons kv rest ih =>
      by_cases h : kv.1 = n <;> simp [SequenceManager.get, h, ih]

/-- C7: a second `registerSequence` under an already-registered name fails
with the duplicate-registration error and leaves the registry unchanged:
the first registration stays retrievable, and `get` of any name that was
unregistered (and is not the new one) still returns an absent value —
`get` is total and never throws. -/
theorem registerSequence_duplicate_rejected (m m' : SequenceManager) (s t : Sequence)
    (hok : SequenceManager.registerSequence m s = Except.ok m')
    (hname : t.name = s.name) :
    SequenceManager.registerSequence m' t =
      Except.error ("Sequence " ++ t.name ++ " is already registered.") ∧
    m'.get s.name = some s ∧
    ∀ n, m.get n = none → n ≠ s.name → m'.get n = none := by
  unfold SequenceManager.registerSequence at hok
  by_cases habs : (m.get s.name).isSome
  · simp [habs] at hok
  · simp [habs] at hok
    have hnone : m.get s.name = none := by
      cases hc : m.get s.name with
      | none => rfl
      | some x => rw [hc] at habs; simp at habs
    have hget : m'.get s.name = some s := by
      rw [← hok, SequenceManager.get_append_single, hnone]; simp
    refine ⟨?_, hget, ?_⟩
    · simp [SequenceManager.registerSequence, hname, hget]
    · intro n hn hns
      rw [← hok, SequenceManager.get_append_single, hn]
      simp [Ne.symm hns]

/-- C7 witness: register a sequence into the empty registry, then register
a same-named sequence; the second call fails and the first stays. -/
theorem registerSequence_duplicate_rejected_witness :
    SequenceManager.registerSequence
        [(CTX_AUTH, { name := CTX_AUTH, activityDesc := "a", authRequired := false,
                      params := [], navigate := fun st => st })]
        { name := CTX_AUTH, activityDesc := "b", authRequired := false,
          params := [], navigate := fun st => st } =
      Except.error ("Sequence " ++ CTX_AUTH ++ " is already registered.") ∧
    SequenceManager.get
        [(CTX_AUTH, { name := CTX_AUTH, activityDesc := "a", authRequired := false,
                      params := [], navigate := fun st => st })] CTX_AUTH =
      some { name := CTX_AUTH, activityDesc := "a", authRequired := false,
             params := [], navigate := fun st => st } ∧
    ∀ n, SequenceManager.get ([] : SequenceManager) n = none → n ≠ CTX_AUTH →
      SequenceManager.get
        [(CTX_AUTH, { name := CTX_AUTH, activityDesc := "a", authRequired := false,
                      params := [], navigate := fun st => st })] n = none :=
  registerSequence_duplicate_rejected []
    [(CTX_AUTH, { name := CTX_AUTH, activityDesc := "a", authRequired := false,
                  params := [], navigate := fun st => st })]
    { name := CTX_AUTH, activityDesc := "a", authRequired := false,
      params := [], navigate := fun st => st }
    { name := CTX_AUTH, activityDesc := "b", authRequired := false,
      params := [], navigate := fun st => st }
    rfl rfl

/-- C10: `createEsSessionProps` stores the client's single shared
`_baseParams` object as the new context's `parameters` (no copy): two
session-props contexts created by the same client alias one object, and
after creating props for `s1` and then for a different `s2`, reading
`sessionId` through the *first* context yields `s2`. -/
theorem createEsSessionProps_aliases_baseParams (cl : EsClientRef) (h : JsHeap)
    (s1 s2 : String) (hne : s1 ≠ s2) :
    ((createEsSessionProps cl h s1).2).parametersRef =
      ((createEsSessionProps cl (createEsSessionProps cl h s1).1 s2).2).parametersRef ∧
    heapRead (createEsSessionProps cl (createEsSessionProps cl h s1).1 s2).1
      ((createEsSessionProps cl h s1).2).parametersRef "sessionId" = JVal.str s2 ∧
    ¬ heapRead (createEsSessionProps cl (createEsSessionProps cl h s1).1 s2).1
      ((createEsSessionProps cl h s1).2).parametersRef "sessionId" = JVal.str s1 := by
  have hv : heapRead (createEsSessionProps cl (createEsSessionProps cl h s1).1 s2).1
      ((createEsSessionProps cl h s1).2).parametersRef "sessionId" = JVal.str s2 := by
    simp [createEsSessionProps, esSessionPropAssignments, heapRead, heapWrite,
      getP_setP_self, getP_setP_ne]
  refine ⟨rfl, hv, ?_⟩
  rw [hv]
  simp [JVal.str.injEq]
  exact Ne.symm hne

/-- C10 witness: two concrete session identifiers. -/
theorem createEsSessionProps_aliases_baseParams_witness :
    ((createEsSessionProps ⟨0⟩ (fun _ => []) "session-A").2).parametersRef =
      ((createEsSessionProps ⟨0⟩
        (createEsSessionProps ⟨0⟩ (fun _ => []) "session-A").1 "session-B").2).parametersRef ∧
    heapRead (createEsSessionProps ⟨0⟩
        (createEsSessionProps ⟨0⟩ (fun _ => []) "session-A").1 "session-B").1
      ((createEsSessionProps ⟨0⟩ (fun _ => []) "session-A").2).parametersRef "sessionId" =
      JVal.str "session-B" ∧
    ¬ heapRead (createEsSessionProps ⟨0⟩
        (createEsSessionProps ⟨0⟩ (fun _ => []) "session-A").1 "session-B").1
      ((createEsSessionProps ⟨0⟩ (fun _ => []) "session-A").2).parametersRef "sessionId" =
      JVal.str "session-A" :=
  createEsSessionProps_aliases_baseParams ⟨0⟩ (fun _ => []) "session-A" "session-B"
    (by decide)

/-- C3 (code behaviour at the failing input): with `validationStatus = '2'`
and `offeredAgent = '0'` the gate stops without navigating, but — contrary
to the claim — the apology does not reference the sequence's activity
(the `activity` getter is misspelled `ativity`, so the interpolation reads
`undefined`), and the raised follow-up event and recorded `lastEvent` are
the agent object rather than the string `OfferSpeakToAgent` (the call
uses the retired four-argument `setFollowupEvent` signature against the
two-parameter `respondWithEvent`). -/
theorem handleRequireAuthentication_failed_offer_agent_behaviour :
    sessionParam (handleRequireAuthentication smFx stC3) "lastFulfillmentText" =
      JVal.str "I\x27m sorry, but undefined isn\x27t something I can do without validating your identity." ∧
    sessionParam (handleRequireAuthentication smFx stC3) "lastEvent" = JVal.agentObj ∧
    (handleRequireAuthentication smFx stC3).trace =
      [Ev.authGate, Ev.added JVal.sessionPropsObj, Ev.followup JVal.agentObj] ∧
    (handleRequireAuthentication smFx stC3).crashed = false := by
  decide

/-- C4 (code behaviour at the failing input): with `validationStatus = '1'`
the gate forces `customerValidated = '1'` and re-navigates the current
sequence, but — contrary to the claim — processing does not end there: the
branch has no `return`, so the gate falls through, pushes the
authentication sequence onto the stack, and navigates it in the same
turn. -/
theorem handleRequireAuthentication_validated_falls_through :
    sessionParam (handleRequireAuthentication smFx stC4) "customerValidated" =
      JVal.str "1" ∧
    (handleRequireAuthentication smFx stC4).trace =
      [Ev.authGate, Ev.navigateCalled CTX_PWRESET, Ev.navigateCalled CTX_AUTH] ∧
    sessionParam (handleRequireAuthentication smFx stC4) "sequenceStack" =
      JVal.str "reasonforcontact|passwordreset|authentication" ∧
    sessionParam (handleRequireAuthentication smFx stC4) "sequenceCurrent" =
      JVal.str CTX_AUTH ∧
    (handleRequireAuthentication smFx stC4).crashed = false := by
  decide

/-- Responding with the stored `lastFulfillmentText` emits exactly that
value (the `'|'` default marker check is immaterial when the argument is
the stored text itself). -/
theorem respondWithText_lastFulfillmentText (st : St) :
    respondWithText st (sessionParam st "lastFulfillmentText") =
      appendEv (Ev.added (sessionParam st "lastFulfillmentText")) st := by
  by_cases h : sessionParam st "lastFulfillmentText" = JVal.str "|" <;>
    simp [respondWithText, h]

/-- C2: for a resolved intent with `waitForReply = true` whose handler
completes (no exception) with `responseAlreadySet` different from `'1'`,
the turn sets `lastAction` to the resolved action, emits the stored
`lastFulfillmentText` as the turn's response, and stops: the trace the
orchestrator appends after the handler is exactly that one response event,
so neither the authentication gate (`Ev.authGate`) nor any sequence's
`navigate` (`Ev.navigateCalled`) is invoked in that turn. -/
theorem handleIntentAndNavigate_waitForReply_breaks (cl : Client) (action : String)
    (st : St) (i : Intent)
    (hget : cl.intentManager.get action = some i)
    (hwait : i.waitForReply = true)
    (hok : (callHandler i action st).crashed = false)
    (hresp : ¬ sessionParam (callHandler i action st) "responseAlreadySet" = JVal.str "1") :
    sessionParam (handleIntentAndNavigate cl action st) "lastAction" = JVal.str action ∧
    (handleIntentAndNavigate cl action st).trace =
      (callHandler i action st).trace ++
        [Ev.added (sessionParam (callHandler i action st) "lastFulfillmentText")] ∧
    (handleIntentAndNavigate cl action st).crashed = false := by
  have hlff : sessionParam (setSessionParam (callHandler i action st) "lastAction"
      (JVal.str action)) "lastFulfillmentText" =
      sessionParam (callHandler i action st) "lastFulfillmentText" :=
    setSessionParam_sessionParam_ne _ _ _ _ (by decide)
  unfold handleIntentAndNavigate
  rw [hget]
  simp only [hok, Bool.false_eq_true, if_false, afterHandler, hresp, hwait, if_true,
    ite_false, ite_true]
  rw [respondWithText_lastFulfillmentText]
  refine ⟨?_, ?_, ?_⟩
  · simp [getP_setP_self]
  · simp [hlff]
  · simp [hok]

/-- C2 witness: the break intent `"greet"` on a session holding a stored
fulfillment text. -/
theorem handleIntentAndNavigate_waitForReply_breaks_witness :
    sessionParam (handleIntentAndNavigate clGreetFx "greet" stGreetFx) "lastAction" =
      JVal.str "greet" ∧
    (handleIntentAndNavigate clGreetFx "greet" stGreetFx).trace =
      (callHandler intGreetFx "greet" stGreetFx).trace ++
        [Ev.added (sessionParam (callHandler intGreetFx "greet" stGreetFx)
          "lastFulfillmentText")] ∧
    (handleIntentAndNavigate clGreetFx "greet" stGreetFx).crashed = false :=
  handleIntentAndNavigate_waitForReply_breaks clGreetFx "greet" stGreetFx intGreetFx
    rfl rfl (by decide) (by decide)

/-- Running the connector payload handlers starting at index `i` folds the
handlers over the session parameters (each receiving the previous output)
and appends one `payloadHook` event per handler, in order. -/
theorem runPayloadHandlersAux_spec (hooks : List (Params → Params)) :
    ∀ (i : Nat) (st : St),
      runPayloadHandlersAux hooks i st =
        { st with
          sessionParams := hooks.foldl (fun p h => h p) st.sessionParams,
          trace := st.trace ++ hookEvents hooks.length i } := by
  induction hooks with
  | nil => intro i st; simp [runPayloadHandlersAux, hookEvents]
  | cons h hs ih =>
      intro i st
      simp [runPayloadHandlersAux, hookEvents, appendEv, ih]

/-- Persisting the live session-props context makes it the stored
`sessionprops` entry. -/
theorem ctxGet_ctxSet_sp (store : List (String × Ctx)) (lif : Nat) (p : Params) :
    ctxGet (ctxSet store { name := SESSION_PROPS, lifespan := lif, parameters := p })
      SESSION_PROPS = some { name := SESSION_PROPS, lifespan := lif, parameters := p } :=
  ctxGet_ctxSet_self store _

/-- C8: the session bootstrap block runs exactly on turns with
`sessionInitialized = '0'`: there it runs the base payload hook, then every
connector payload hook in registration order (each receiving the previous
output, witnessed by the fold), then the lookup hook exactly when
`customerIdentified = '0'` or `interactionSource = "phone"` holds of the
hook output, and finally sets (and persists) `sessionInitialized = '1'`;
on a turn with `sessionInitialized = '1'` it is the identity: no payload
or lookup hook event is ever produced. -/
theorem bootstrapBlock_runs_exactly_once (cl : Client) (st0 st1 : St)
    (h0 : sessionParam st0 "sessionInitialized" = JVal.str "0")
    (h1 : sessionParam st1 "sessionInitialized" = JVal.str "1") :
    (let p2 := cl.payloadHandlers.foldl (fun p h => h p)
        (cl.populateFromEsPayload st0.sessionParams)
     let p3 := if getP p2 "customerIdentified" = JVal.str "0"
          ∨ getP p2 "interactionSource" = JVal.str "phone"
        then cl.populateFromLookup p2 else p2
     (bootstrapBlock cl st0).sessionParams =
        setP p3 "sessionInitialized" (JVal.str "1") ∧
     (bootstrapBlock cl st0).trace =
        st0.trace ++ [Ev.basePayloadHook] ++ hookEvents cl.payloadHandlers.length 0 ++
          (if getP p2 "customerIdentified" = JVal.str "0"
              ∨ getP p2 "interactionSource" = JVal.str "phone"
           then [Ev.lookupHook] else []) ∧
     sessionParam (bootstrapBlock cl st0) "sessionInitialized" = JVal.str "1" ∧
     persistedSessionParam (bootstrapBlock cl st0) "sessionInitialized" = JVal.str "1") ∧
    bootstrapBlock cl st1 = st1 := by
  constructor
  · have hper : ∀ st : St,
        persistedSessionParam
          { st with ctxStore := ctxSet st.ctxStore (sessionCtx st) } "sessionInitialized" =
          sessionParam st "sessionInitialized" := by
      intro st
      have hset := ctxGet_ctxSet_self st.ctxStore (sessionCtx st)
      simp [persistedSessionParam, sessionCtx] at hset ⊢
      simp [hset, sessionParam]
    by_cases hlk : getP (cl.payloadHandlers.foldl (fun p h => h p)
        (cl.populateFromEsPayload st0.sessionParams)) "customerIdentified" = JVal.str "0"
        ∨ getP (cl.payloadHandlers.foldl (fun p h => h p)
        (cl.populateFromEsPayload st0.sessionParams)) "interactionSource" = JVal.str "phone"
    · simp only [bootstrapBlock, h0, if_true, ite_true, runPayloadHandlersAux_spec,
        appendEv, assignSessionParam]
      simp only [sessionParam, appendEv] at hlk
      simp [hlk, hper, sessionParam, getP_setP_self, persistedSessionParam,
        ctxGet_ctxSet_sp, sessionCtx, List.append_assoc]
    · simp only [bootstrapBlock, h0, if_true, ite_true, runPayloadHandlersAux_spec,
        appendEv, assignSessionParam]
      simp only [sessionParam, appendEv] at hlk
      simp [hlk, hper, sessionParam, getP_setP_self, persistedSessionParam,
        ctxGet_ctxSet_sp, sessionCtx, List.append_assoc]
  · have hne : ¬ sessionParam st1 "sessionInitialized" = JVal.str "0" := by
      rw [h1]; decide
    simp [bootstrapBlock, hne]

/-- C8 witness: a client with one connector payload handler that marks the
customer unidentified (forcing the lookup hook), on a first turn and on an
already-initialized turn. -/
theorem bootstrapBlock_runs_exactly_once_witness :
    (let p2 := clBootFx.payloadHandlers.foldl (fun p h => h p)
        (clBootFx.populateFromEsPayload
          (mkSt [("sessionInitialized", JVal.str "0")] []).sessionParams)
     let p3 := if getP p2 "customerIdentified" = JVal.str "0"
          ∨ getP p2 "interactionSource" = JVal.str "phone"
        then clBootFx.populateFromLookup p2 else p2
     (bootstrapBlock clBootFx (mkSt [("sessionInitialized", JVal.str "0")] [])).sessionParams =
        setP p3 "sessionInitialized" (JVal.str "1") ∧
     (bootstrapBlock clBootFx (mkSt [("sessionInitialized", JVal.str "0")] [])).trace =
        (mkSt [("sessionInitialized", JVal.str "0")] []).trace ++ [Ev.basePayloadHook] ++
          hookEvents clBootFx.payloadHandlers.length 0 ++
          (if getP p2 "customerIdentified" = JVal.str "0"
              ∨ getP p2 "interactionSource" = JVal.str "phone"
           then [Ev.lookupHook] else []) ∧
     sessionParam (bootstrapBlock clBootFx (mkSt [("sessionInitialized", JVal.str "0")] []))
        "sessionInitialized" = JVal.str "1" ∧
     persistedSessionParam
        (bootstrapBlock clBootFx (mkSt [("sessionInitialized", JVal.str "0")] []))
        "sessionInitialized" = JVal.str "1") ∧
    bootstrapBlock clBootFx (mkSt [("sessionInitialized", JVal.str "1")] []) =
      mkSt [("sessionInitialized", JVal.str "1")] [] :=
  bootstrapBlock_runs_exactly_once clBootFx
    (mkSt [("sessionInitialized", JVal.str "0")] [])
    (mkSt [("sessionInitialized", JVal.str "1")] [])
    (by decide) (by decide)

/-- A turn aborted inside the preamble carries the `crashed` flag (the
`.error` results of `turnPreamble` all come from `crash`). -/
theorem turnPreamble_error_crashed (cl : Client) (sid action : String) (st0 stE : St)
    (h : turnPreamble cl sid action st0 = Except.error stE) : stE.crashed = true := by
  simp only [turnPreamble] at h
  split at h
  · cases h; simp [crash]
  · split at h
    · split at h
      · cases h; simp [crash]
      · cases h
    · cases h

/-- Every step of the post-stand-alone resolution tail ends in the
`finishBranch` epilogue. -/
theorem resolveTail_shape (cl : Client) (action drt : String) (sq : Sequence)
    (st : St) :
    ∃ x, resolveTail cl action drt sq st = finishBranch x := by
  simp only [resolveTail]
  split
  · exact ⟨_, rfl⟩
  · split
    · split
      · exact ⟨_, rfl⟩
      · exact ⟨_, rfl⟩
    · split
      · exact ⟨_, rfl⟩
      · exact ⟨_, rfl⟩

/-- Every branch of the resolution chain ends either in a thrown exception
or in the `finishBranch` epilogue. -/
theorem resolveAndRun_shape (cl : Client) (action drt : String) (sq : Sequence)
    (st : St) :
    (∃ st2, resolveAndRun cl action drt sq st = crash st2) ∨
    (∃ x, resolveAndRun cl action drt sq st = finishBranch x) := by
  simp only [resolveAndRun]
  split
  · right; exact ⟨_, rfl⟩
  · split
    · split
      · split
        · left; exact ⟨_, rfl⟩
        · right; exact resolveTail_shape cl action drt sq _
      · right; exact resolveTail_shape cl action drt sq st
    · right; exact resolveTail_shape cl action drt sq st

/-- C9: on every turn that the orchestrator entry point completes without
an exception — whatever resolution branch (stand-alone, composite,
templated, no-handler fallback) and whatever gating ran inside it — the
persisted session-props context ends the request with
`responseAlreadySet = '0'`. -/
theorem intentHandler_resets_responseAlreadySet (cl : Client)
    (sid action drt : String) (st0 : St)
    (h : (intentHandler cl sid action drt st0).crashed = false) :
    persistedSessionParam (intentHandler cl sid action drt st0) "responseAlreadySet" =
      JVal.str "0" := by
  cases hpre : turnPreamble cl sid action st0 with
  | error stE =>
      have heq : intentHandler cl sid action drt st0 = stE := by
        simp [intentHandler, hpre]
      rw [heq] at h
      rw [turnPreamble_error_crashed cl sid action st0 stE hpre] at h
      cases h
  | ok p =>
      rcases p with ⟨st, sq⟩
      have heq : intentHandler cl sid action drt st0 = resolveAndRun cl action drt sq st := by
        simp [intentHandler, hpre]
      rw [heq] at h ⊢
      rcases resolveAndRun_shape cl action drt sq st with ⟨st2, he⟩ | ⟨x, he⟩
      · rw [he] at h; simp [crash] at h
      · rw [he] at h ⊢
        have hx : x.crashed = false := by rw [← finishBranch_crashed]; exact h
        exact finishBranch_persisted x hx

/-- C9 witness: the priority-chain fixture turn completes uncrashed and
ends with `responseAlreadySet = '0'` persisted. -/
theorem intentHandler_resets_responseAlreadySet_witness :
    persistedSessionParam (intentHandler clAskFx "s1" "ask.wellbeing" "hello" stAskFx)
      "responseAlreadySet" = JVal.str "0" :=
  intentHandler_resets_responseAlreadySet clAskFx "s1" "ask.wellbeing" "hello" stAskFx
    (by decide)

/-- C1: whenever the detected action is registered as a stand-alone
intent, the turn is exactly the preamble followed by
`handleIntentAndNavigate` on that stand-alone action and the branch
epilogue: the composite (`lastAction + '.' + action`) and templated steps
of the resolution chain are never consulted — the right-hand side makes no
reference to them — even when a composite entry is also registered. -/
theorem intentHandler_standalone_wins (cl : Client) (sid action drt : String)
    (st0 : St) (h : cl.intentManager.has action = true) :
    intentHandler cl sid action drt st0 =
      (match turnPreamble cl sid action st0 with
       | Except.error st => st
       | Except.ok (st, _) => finishBranch (handleIntentAndNavigate cl action st)) := by
  cases hpre : turnPreamble cl sid action st0 with
  | error stE => simp [intentHandler, hpre]
  | ok p =>
      rcases p with ⟨st, sq⟩
      simp [intentHandler, hpre, resolveAndRun, h]

/-- C1 witness: the spec's example — `lastAction = "welcome"`, detected
action `ask.wellbeing`, both the stand-alone and the composite
`welcome.ask.wellbeing` intents registered — resolves through the
stand-alone branch. -/
theorem intentHandler_standalone_wins_witness :
    intentHandler clAskFx "s1" "ask.wellbeing" "hello" stAskFx =
      (match turnPreamble clAskFx "s1" "ask.wellbeing" stAskFx with
       | Except.error st => st
       | Except.ok (st, _) =>
          finishBranch (handleIntentAndNavigate clAskFx "ask.wellbeing" st)) :=
  intentHandler_standalone_wins clAskFx "s1" "ask.wellbeing" "hello" stAskFx (by decide)
